import Mathlib

/-!
Verification of the read-through, on-disk cache layer of the AllenSDK
behavior project cache (spec sections 2 to 8).

The concrete Python implementation of this layer
(allensdk/brain_observatory/behavior/behavior_project_cache.py and the
call_caching utilities) is not part of the reviewed source excerpt; only its
test suite (test_behavior_project_cache.py) is.  The definitions below are
therefore modelled from the natural-language spec, with every observable
detail (log-event sequences, cache-file creation, warm/cold behavior) pinned
to the assertions of the in-repository test file, which is authoritative
where it speaks.
-/

namespace AllenSDK

/-- Modelled from the spec: a table cell.  The reviewed tables carry integer
ids, strings (dates, genotype names) and list-valued columns of child ids
(spec section 3, derived view).  Missing source: the pandas DataFrame values
used by behavior_project_cache.py. -/
inductive Cell where
  | nat : Nat → Cell
  | str : String → Cell
  | listN : List Nat → Cell
deriving DecidableEq

/-- A table row body: named fields. -/
abbrev Row := List (String × Cell)

/-- Modelled from the spec: a dataset table with a named primary index and
ordered rows, each row an index value paired with its named fields
(spec section 3, Dataset record). -/
structure Table where
  indexName : String
  rows : List (Nat × Row)
deriving DecidableEq

/-- Association-list lookup by key, first match wins. -/
def alookup {β : Type} (k : String) : List (String × β) → Option β
  | [] => none
  | p :: t => if p.1 = k then some p.2 else alookup k t

/-- Concatenation of the images of a list under a list-valued function. -/
def listJoinMap {α β : Type} (f : α → List β) : List α → List β
  | [] => []
  | a :: t => f a ++ listJoinMap f t

/-- The list of elements a cell contributes to an exploded column: a
list-valued cell contributes its elements, anything else contributes none. -/
def cellElems : Option Cell → List Nat
  | some (Cell.listN xs) => xs
  | _ => []

/-- Remove the named field from a row body. -/
def eraseField (col : String) : Row → Row
  | [] => []
  | p :: t => if p.1 = col then eraseField col t else p :: eraseField col t

/-- Modelled from the spec: the derived view (spec section 3).  Explode the
list-valued column named col into one row per element, replicate all other
columns, carry the old index as an ordinary column, and re-index on the
exploded values.  Missing source: the DataFrame reshaping inside
get_session_table of behavior_project_cache.py. -/
def explode (t : Table) (col : String) : Table :=
  ⟨col,
   listJoinMap
     (fun p =>
       (cellElems (alookup col p.2)).map
         (fun x => (x, (t.indexName, Cell.nat p.1) :: eraseField col p.2)))
     t.rows⟩

/-- Serialized on-disk token: the modelled persistence alphabet. -/
inductive Tok where
  | tnat : Nat → Tok
  | tstr : String → Tok
deriving DecidableEq

/-- Modelled from the spec: codec write of a single cell (the on-disk
serialization codec is an external collaborator treated as an opaque
round-trip format, spec section 1; we model a concrete format so that the
round-trip law of spec section 8.3 is a provable property). -/
def encodeCell : Cell → List Tok
  | Cell.nat n => [Tok.tnat 0, Tok.tnat n]
  | Cell.str s => [Tok.tnat 1, Tok.tstr s]
  | Cell.listN xs => Tok.tnat 2 :: Tok.tnat xs.length :: xs.map Tok.tnat

/-- Codec write of a named field. -/
def encodeField (f : String × Cell) : List Tok :=
  Tok.tstr f.1 :: encodeCell f.2

/-- Codec write of one indexed row. -/
def encodeRow (p : Nat × Row) : List Tok :=
  Tok.tnat p.1 :: Tok.tnat p.2.length :: listJoinMap encodeField p.2

/-- Modelled from the spec: codec write of a whole table. -/
def encodeTable (t : Table) : List Tok :=
  Tok.tstr t.indexName :: Tok.tnat t.rows.length :: listJoinMap encodeRow t.rows

/-- Codec read of a fixed number of naturals. -/
def decodeNats : Nat → List Tok → Option (List Nat × List Tok)
  | 0, ts => some ([], ts)
  | k + 1, Tok.tnat n :: ts =>
      (decodeNats k ts).map (fun r => (n :: r.1, r.2))
  | _ + 1, _ => none

/-- Codec read of a single cell. -/
def decodeCell : List Tok → Option (Cell × List Tok)
  | Tok.tnat 0 :: Tok.tnat n :: ts => some (Cell.nat n, ts)
  | Tok.tnat 1 :: Tok.tstr s :: ts => some (Cell.str s, ts)
  | Tok.tnat 2 :: Tok.tnat k :: ts =>
      (decodeNats k ts).map (fun r => (Cell.listN r.1, r.2))
  | _ => none

/-- Codec read of a named field. -/
def decodeField : List Tok → Option ((String × Cell) × List Tok)
  | Tok.tstr n :: ts => (decodeCell ts).map (fun r => ((n, r.1), r.2))
  | _ => none

/-- Codec read of a fixed number of named fields. -/
def decodeFields : Nat → List Tok → Option (Row × List Tok)
  | 0, ts => some ([], ts)
  | k + 1, ts =>
      (decodeField ts).bind
        (fun r => (decodeFields k r.2).map (fun r2 => (r.1 :: r2.1, r2.2)))

/-- Codec read of one indexed row. -/
def decodeRow : List Tok → Option ((Nat × Row) × List Tok)
  | Tok.tnat i :: Tok.tnat k :: ts =>
      (decodeFields k ts).map (fun r => ((i, r.1), r.2))
  | _ => none

/-- Codec read of a fixed number of indexed rows. -/
def decodeRows : Nat → List Tok → Option (List (Nat × Row) × List Tok)
  | 0, ts => some ([], ts)
  | k + 1, ts =>
      (decodeRow ts).bind
        (fun r => (decodeRows k r.2).map (fun r2 => (r.1 :: r2.1, r2.2)))

/-- Modelled from the spec: codec read of a whole table; fails unless the
content is a complete, well-formed serialization. -/
def decodeTable : List Tok → Option Table
  | Tok.tstr n :: Tok.tnat k :: ts =>
      match decodeRows k ts with
      | some (rs, []) => some ⟨n, rs⟩
      | _ => none
  | _ => none

/-- The error alphabet of the layer (spec section 7). -/
inductive CacheError where
  | unknownKey : CacheError
  | remoteFetchError : CacheError
  | serializationError : CacheError
  | fileNotFound : CacheError
deriving DecidableEq

/-- Modelled from the spec: the manifest maps logical dataset keys to
physical paths; constructed once, immutable (spec sections 3 and 4.1).
Missing source: the Manifest class used by behavior_project_cache.py. -/
structure Manifest where
  entries : List (String × String)
deriving DecidableEq

/-- Modelled from the spec: resolve a logical key to a path; fails with
UnknownKey when the key has no configured template (spec section 4.1). -/
def Manifest.resolve (m : Manifest) (k : String) : Except CacheError String :=
  match alookup k m.entries with
  | some p => Except.ok p
  | none => Except.error CacheError.unknownKey

/-- The observable world state threaded through the protocol: the cache-root
file store (path to serialized bytes, newest first), the log channel, and
the number of remote-fetch invocations performed so far. -/
structure CacheState where
  files : List (String × List Tok)
  log : List String
  fetchCount : Nat
deriving DecidableEq

/-- The literal probe/read log event (spec section 4.2). -/
def evRead : String := "Reading data from cache"

/-- The literal miss log event (spec section 4.2). -/
def evMiss : String := "No cache file found."

/-- The literal fetch log event (spec section 4.2). -/
def evFetch : String := "Fetching data from remote"

/-- The literal write log event (spec section 4.2). -/
def evWrite : String := "Writing data to cache"

/-- The five-event cold-cache sequence probe, miss, fetch, write, read
(spec section 4.2). -/
def fiveSeq : List String := [evRead, evMiss, evFetch, evWrite, evRead]

/-- Decode stored bytes, reporting a codec failure as SerializationError
(spec section 7). -/
def readBytes (bs : List Tok) : Except CacheError Table :=
  match decodeTable bs with
  | some t => Except.ok t
  | none => Except.error CacheError.serializationError

/-- Codec read at a path of the file store (spec section 4.2 step 3). -/
def readFile (files : List (String × List Tok)) (path : String) :
    Except CacheError Table :=
  match alookup path files with
  | some bs => readBytes bs
  | none => Except.error CacheError.fileNotFound

/-- Modelled from the spec: the CachedFetch read-through primitive
(spec section 4.2).  Missing source: call_caching in the AllenSDK caching
utilities.  With caching enabled it resolves the key, probes the store
(emitting the probe event), on a hit deserializes and returns the stored
bytes, and on a miss emits the miss and fetch events, invokes the remote
fetch, emits the write event, persists the encoded value, emits the read
event and returns the deserialization of the file just written.  With
caching disabled it is a pure pass-through to the fetch collaborator
(spec section 6, construction surface; spec section 9 records the disabled
log sequence as not pinned down by the tests, and the pass-through emits no
events).  The hit path emits a single probe/read event: the in-repository
test pins a warm accessor call to exactly two such events while the
accessor performs two cached-fetch invocations. -/
def cachedFetch (m : Manifest) (key : String) (fetch : Except CacheError Table)
    (caching_enabled : Bool) (s : CacheState) :
    Except CacheError Table × CacheState :=
  if caching_enabled then
    match m.resolve key with
    | Except.error e => (Except.error e, s)
    | Except.ok path =>
      match alookup path s.files with
      | some _ =>
          (readFile s.files path,
           ⟨s.files, s.log ++ [evRead], s.fetchCount⟩)
      | none =>
        match fetch with
        | Except.error e =>
            (Except.error e,
             ⟨s.files, s.log ++ [evRead, evMiss, evFetch], s.fetchCount + 1⟩)
        | Except.ok v =>
            let files2 := (path, encodeTable v) :: s.files
            (readFile files2 path,
             ⟨files2, s.log ++ fiveSeq, s.fetchCount + 1⟩)
  else
    (fetch, ⟨s.files, s.log, s.fetchCount + 1⟩)

instance {ε α : Type} [DecidableEq ε] [DecidableEq α] :
    DecidableEq (Except ε α) := fun
  | Except.ok a, Except.ok b =>
      match decEq a b with
      | isTrue h => isTrue (by rw [h])
      | isFalse h => isFalse (by intro hh; cases hh; exact h rfl)
  | Except.ok _, Except.error _ => isFalse (by intro h; cases h)
  | Except.error _, Except.ok _ => isFalse (by intro h; cases h)
  | Except.error e, Except.error f =>
      match decEq e f with
      | isTrue h => isTrue (by rw [h])
      | isFalse h => isFalse (by intro hh; cases hh; exact h rfl)

/-- The remote fetch collaborator (spec section 6): each table fetch is an
idempotent, side-effect-free operation whose outcome we model as a value. -/
structure FetchApi where
  get_session_table : Except CacheError Table
  get_behavior_only_session_table : Except CacheError Table
  get_experiment_table : Except CacheError Table
deriving DecidableEq

/-- Modelled from the spec: the ProjectCache facade (spec sections 4.3
and 6): a fetch api, the caching flag, and the manifest. -/
structure ProjectCache where
  fetch_api : FetchApi
  cache : Bool
  manifest : Manifest

/-- The logical key of the ophys session table (from the test file's
manifest lookups). -/
def OPHYS_SESSIONS_KEY : String := "ophys_sessions"

/-- The logical key of the behavior-only session table. -/
def BEHAVIOR_SESSIONS_KEY : String := "behavior_sessions"

/-- The logical key of the ophys experiment table. -/
def OPHYS_EXPERIMENTS_KEY : String := "ophys_experiments"

/-- The default index column of the session table. -/
def DEFAULT_SESSION_INDEX : String := "ophys_session_id"

/-- Modelled from the spec: the session-table accessor (spec section 4.3).
It performs two cached-fetch invocations on distinct logical keys — the
in-repository test pins a cold accessor call to the five-event sequence
emitted twice and a warm call to two probe/read events, so the two
invocations target distinct backing files; following the repository layout
the auxiliary key is the behavior-session table merged in for metadata.
A non-default index_column produces the exploded derived view. -/
def ProjectCache.get_session_table (pc : ProjectCache) (index_column : String)
    (s : CacheState) : Except CacheError Table × CacheState :=
  match cachedFetch pc.manifest OPHYS_SESSIONS_KEY
      pc.fetch_api.get_session_table pc.cache s with
  | (Except.error e, s1) => (Except.error e, s1)
  | (Except.ok t, s1) =>
    match cachedFetch pc.manifest BEHAVIOR_SESSIONS_KEY
        pc.fetch_api.get_behavior_only_session_table pc.cache s1 with
    | (Except.error e, s2) => (Except.error e, s2)
    | (Except.ok _, s2) =>
        (Except.ok
          (if index_column = DEFAULT_SESSION_INDEX then t
           else explode t index_column), s2)

/-- Modelled from the spec: the behavior-session-table accessor
(spec section 4.3); like get_session_table it performs two cached-fetch
invocations on distinct keys (pinned by the in-repository test), the
auxiliary one fetching the experiment table. -/
def ProjectCache.get_behavior_session_table (pc : ProjectCache)
    (s : CacheState) : Except CacheError Table × CacheState :=
  match cachedFetch pc.manifest BEHAVIOR_SESSIONS_KEY
      pc.fetch_api.get_behavior_only_session_table pc.cache s with
  | (Except.error e, s1) => (Except.error e, s1)
  | (Except.ok t, s1) =>
    match cachedFetch pc.manifest OPHYS_EXPERIMENTS_KEY
        pc.fetch_api.get_experiment_table pc.cache s1 with
    | (Except.error e, s2) => (Except.error e, s2)
    | (Except.ok _, s2) => (Except.ok t, s2)

/-- Modelled from the spec: the experiment-table accessor
(spec section 4.3), structured like the other two table accessors. -/
def ProjectCache.get_experiment_table (pc : ProjectCache) (s : CacheState) :
    Except CacheError Table × CacheState :=
  match cachedFetch pc.manifest OPHYS_EXPERIMENTS_KEY
      pc.fetch_api.get_experiment_table pc.cache s with
  | (Except.error e, s1) => (Except.error e, s1)
  | (Except.ok t, s1) =>
    match cachedFetch pc.manifest BEHAVIOR_SESSIONS_KEY
        pc.fetch_api.get_behavior_only_session_table pc.cache s1 with
    | (Except.error e, s2) => (Except.error e, s2)
    | (Except.ok _, s2) => (Except.ok t, s2)

/-- A name for each public table accessor. -/
inductive Accessor where
  | sessions : Accessor
  | behaviorSessions : Accessor
  | experiments : Accessor
deriving DecidableEq

/-- Run one accessor (the session accessor at its default index column). -/
def runAccessor (pc : ProjectCache) : Accessor → CacheState →
    Except CacheError Table × CacheState
  | Accessor.sessions => pc.get_session_table DEFAULT_SESSION_INDEX
  | Accessor.behaviorSessions => pc.get_behavior_session_table
  | Accessor.experiments => pc.get_experiment_table

/-- Run a sequence of accessor calls, threading the state. -/
def runCalls (pc : ProjectCache) : List Accessor → CacheState → CacheState
  | [], s => s
  | a :: t, s => runCalls pc t (runAccessor pc a s).2

/-- The one-row session table of the in-repository test fixture: index
ophys_session_id = 1, behavior_session_id 3, child experiment ids [5, 6],
an acquisition date. -/
def sessionTableFix : Table :=
  ⟨"ophys_session_id",
   [(1, [("behavior_session_id", Cell.nat 3),
         ("ophys_experiment_id", Cell.listN [5, 6]),
         ("date_of_acquisition", Cell.str "2020-02-20")])]⟩

/-- A small concrete behavior-session table (three rows, indexed by
behavior_session_id) standing in for the test fixture. -/
def behaviorTableFix : Table :=
  ⟨"behavior_session_id",
   [(1, [("foraging_id", Cell.nat 1), ("mouse_id", Cell.nat 1)]),
    (2, [("foraging_id", Cell.nat 2), ("mouse_id", Cell.nat 1)]),
    (3, [("foraging_id", Cell.nat 3), ("mouse_id", Cell.nat 1)])]⟩

/-- A small concrete experiment table (three rows, indexed by
ophys_experiment_id) standing in for the test fixture. -/
def experimentsTableFix : Table :=
  ⟨"ophys_experiment_id",
   [(1, [("ophys_session_id", Cell.nat 1), ("imaging_depth", Cell.nat 75)]),
    (2, [("ophys_session_id", Cell.nat 2), ("imaging_depth", Cell.nat 75)]),
    (3, [("ophys_session_id", Cell.nat 3), ("imaging_depth", Cell.nat 75)])]⟩

/-- The mock fetch api of the test file: every table fetch succeeds with its
fixture table. -/
def apiFix : FetchApi :=
  ⟨Except.ok sessionTableFix, Except.ok behaviorTableFix,
   Except.ok experimentsTableFix⟩

/-- A concrete manifest configuring the three logical table keys with
distinct paths under the cache root. -/
def manifestFix : Manifest :=
  ⟨[(OPHYS_SESSIONS_KEY, "cache_dir/ophys_sessions.json"),
    (BEHAVIOR_SESSIONS_KEY, "cache_dir/behavior_sessions.json"),
    (OPHYS_EXPERIMENTS_KEY, "cache_dir/ophys_experiments.json")]⟩

/-- The empty initial world: no cache files, empty log, no fetches yet. -/
def s0 : CacheState := ⟨[], [], 0⟩

/-- The concrete caching-enabled project cache of the test fixture. -/
def pcTrueFix : ProjectCache := ⟨apiFix, true, manifestFix⟩

/-- The concrete caching-disabled project cache of the test fixture. -/
def pcFalseFix : ProjectCache := ⟨apiFix, false, manifestFix⟩

/-- Modelled from the spec: the manifest presence query of spec section 4.1,
a filesystem presence check at the resolved path. -/
def existsOnDisk (m : Manifest) (k : String)
    (files : List (String × List Tok)) : Except CacheError Bool :=
  match m.resolve k with
  | Except.error e => Except.error e
  | Except.ok path => Except.ok (alookup path files).isSome

/-! ## Helper lemmas -/

theorem alookup_cons {β : Type} (k : String) (p : String × β)
    (l : List (String × β)) :
    alookup k (p :: l) = if p.1 = k then some p.2 else alookup k l := rfl

theorem length_listJoinMap {α β : Type} (f : α → List β) (l : List α) :
    (listJoinMap f l).length = (l.map (fun a => (f a).length)).sum := by
  induction l with
  | nil => rfl
  | cons a t ih => simp [listJoinMap, ih]

theorem mem_listJoinMap {α β : Type} (f : α → List β) (l : List α) (b : β) :
    b ∈ listJoinMap f l ↔ ∃ a, a ∈ l ∧ b ∈ f a := by
  induction l with
  | nil => simp [listJoinMap]
  | cons a t ih =>
      simp only [listJoinMap, List.mem_append, ih, List.mem_cons]
      constructor
      · intro h
        rcases h with h | ⟨a2, ha, hb⟩
        · exact ⟨a, Or.inl rfl, h⟩
        · exact ⟨a2, Or.inr ha, hb⟩
      · intro h
        rcases h with ⟨a2, (rfl | ha), hb⟩
        · exact Or.inl hb
        · exact Or.inr ⟨a2, ha, hb⟩

theorem decodeNats_encode (xs : List Nat) (rest : List Tok) :
    decodeNats xs.length (xs.map Tok.tnat ++ rest) = some (xs, rest) := by
  induction xs with
  | nil => rfl
  | cons a t ih => simp [decodeNats, ih]

theorem decodeCell_encode (c : Cell) (rest : List Tok) :
    decodeCell (encodeCell c ++ rest) = some (c, rest) := by
  cases c with
  | nat n => rfl
  | str s => rfl
  | listN xs => simp [encodeCell, decodeCell, decodeNats_encode]

theorem decodeField_encode (f : String × Cell) (rest : List Tok) :
    decodeField (encodeField f ++ rest) = some (f, rest) := by
  simp [encodeField, decodeField, decodeCell_encode]

theorem decodeFields_encode (fs : Row) (rest : List Tok) :
    decodeFields fs.length (listJoinMap encodeField fs ++ rest) =
      some (fs, rest) := by
  induction fs with
  | nil => rfl
  | cons f t ih => simp [listJoinMap, decodeFields, decodeField_encode, ih]

theorem decodeRow_encode (p : Nat × Row) (rest : List Tok) :
    decodeRow (encodeRow p ++ rest) = some (p, rest) := by
  simp [encodeRow, decodeRow, decodeFields_encode]

theorem decodeRows_encode (rs : List (Nat × Row)) (rest : List Tok) :
    decodeRows rs.length (listJoinMap encodeRow rs ++ rest) =
      some (rs, rest) := by
  induction rs with
  | nil => rfl
  | cons r t ih => simp [listJoinMap, decodeRows, decodeRow_encode, ih]

theorem decodeTable_encode (t : Table) : decodeTable (encodeTable t) = some t := by
  have h := decodeRows_encode t.rows []
  rw [List.append_nil] at h
  simp [encodeTable, decodeTable, h]

theorem readBytes_encode (t : Table) :
    readBytes (encodeTable t) = Except.ok t := by
  simp [readBytes, decodeTable_encode]

theorem cachedFetch_disabled (m : Manifest) (k : String)
    (fetch : Except CacheError Table) (s : CacheState) :
    cachedFetch m k fetch false s =
      (fetch, ⟨s.files, s.log, s.fetchCount + 1⟩) := rfl

theorem cachedFetch_unknown (m : Manifest) (k : String)
    (fetch : Except CacheError Table) (s : CacheState)
    (h : alookup k m.entries = none) :
    cachedFetch m k fetch true s = (Except.error CacheError.unknownKey, s) := by
  simp [cachedFetch, Manifest.resolve, h]

theorem cachedFetch_hit (m : Manifest) (k : String)
    (fetch : Except CacheError Table) (s : CacheState) (path : String)
    (v : Table) (hr : m.resolve k = Except.ok path)
    (hb : alookup path s.files = some (encodeTable v)) :
    cachedFetch m k fetch true s =
      (Except.ok v, ⟨s.files, s.log ++ [evRead], s.fetchCount⟩) := by
  simp [cachedFetch, hr, hb, readFile, readBytes_encode]

theorem cachedFetch_miss (m : Manifest) (k : String) (s : CacheState)
    (path : String) (v : Table) (hr : m.resolve k = Except.ok path)
    (hb : alookup path s.files = none) :
    cachedFetch m k (Except.ok v) true s =
      (Except.ok v,
       ⟨(path, encodeTable v) :: s.files, s.log ++ fiveSeq,
        s.fetchCount + 1⟩) := by
  simp [cachedFetch, hr, hb, readFile, alookup, readBytes_encode]

theorem cachedFetch_fetchFail (m : Manifest) (k : String) (s : CacheState)
    (path : String) (e : CacheError) (hr : m.resolve k = Except.ok path)
    (hb : alookup path s.files = none) :
    cachedFetch m k (Except.error e) true s =
      (Except.error e,
       ⟨s.files, s.log ++ [evRead, evMiss, evFetch], s.fetchCount + 1⟩) := by
  simp [cachedFetch, hr, hb]

theorem get_session_table_cold (api : FetchApi) (m : Manifest) (s : CacheState)
    (idx p1 p2 : String) (v1 v2 : Table)
    (h1 : m.resolve OPHYS_SESSIONS_KEY = Except.ok p1)
    (h2 : m.resolve BEHAVIOR_SESSIONS_KEY = Except.ok p2)
    (hne : p1 ≠ p2)
    (hb1 : alookup p1 s.files = none)
    (hb2 : alookup p2 s.files = none)
    (hf1 : api.get_session_table = Except.ok v1)
    (hf2 : api.get_behavior_only_session_table = Except.ok v2) :
    ProjectCache.get_session_table ⟨api, true, m⟩ idx s =
      (Except.ok
        (if idx = DEFAULT_SESSION_INDEX then v1 else explode v1 idx),
       ⟨(p2, encodeTable v2) :: (p1, encodeTable v1) :: s.files,
        s.log ++ (fiveSeq ++ fiveSeq), s.fetchCount + 2⟩) := by
  have hb2' : alookup p2 ((p1, encodeTable v1) :: s.files) = none := by
    rw [alookup_cons, if_neg hne]; exact hb2
  have e1 := cachedFetch_miss m OPHYS_SESSIONS_KEY s p1 v1 h1 hb1
  have e2 := cachedFetch_miss m BEHAVIOR_SESSIONS_KEY
    ⟨(p1, encodeTable v1) :: s.files, s.log ++ fiveSeq, s.fetchCount + 1⟩
    p2 v2 h2 hb2'
  simp only [ProjectCache.get_session_table, hf1, hf2, e1, e2]
  simp [List.append_assoc]

theorem get_session_table_warm (api : FetchApi) (m : Manifest) (s : CacheState)
    (idx p1 p2 : String) (v1 v2 : Table)
    (h1 : m.resolve OPHYS_SESSIONS_KEY = Except.ok p1)
    (h2 : m.resolve BEHAVIOR_SESSIONS_KEY = Except.ok p2)
    (hb1 : alookup p1 s.files = some (encodeTable v1))
    (hb2 : alookup p2 s.files = some (encodeTable v2)) :
    ProjectCache.get_session_table ⟨api, true, m⟩ idx s =
      (Except.ok
        (if idx = DEFAULT_SESSION_INDEX then v1 else explode v1 idx),
       ⟨s.files, s.log ++ [evRead, evRead], s.fetchCount⟩) := by
  have e1 := cachedFetch_hit m OPHYS_SESSIONS_KEY api.get_session_table
    s p1 v1 h1 hb1
  have e2 := cachedFetch_hit m BEHAVIOR_SESSIONS_KEY
    api.get_behavior_only_session_table
    ⟨s.files, s.log ++ [evRead], s.fetchCount⟩ p2 v2 h2 hb2
  simp only [ProjectCache.get_session_table, e1, e2]
  simp [List.append_assoc]

theorem get_session_table_noCache (api : FetchApi) (m : Manifest)
    (s : CacheState) (idx : String) (v1 v2 : Table)
    (hf1 : api.get_session_table = Except.ok v1)
    (hf2 : api.get_behavior_only_session_table = Except.ok v2) :
    ProjectCache.get_session_table ⟨api, false, m⟩ idx s =
      (Except.ok
        (if idx = DEFAULT_SESSION_INDEX then v1 else explode v1 idx),
       ⟨s.files, s.log, s.fetchCount + 2⟩) := by
  simp only [ProjectCache.get_session_table, cachedFetch_disabled, hf1, hf2]

theorem get_behavior_session_table_cold (api : FetchApi) (m : Manifest)
    (s : CacheState) (p2 p3 : String) (v2 v3 : Table)
    (h2 : m.resolve BEHAVIOR_SESSIONS_KEY = Except.ok p2)
    (h3 : m.resolve OPHYS_EXPERIMENTS_KEY = Except.ok p3)
    (hne : p2 ≠ p3)
    (hb2 : alookup p2 s.files = none)
    (hb3 : alookup p3 s.files = none)
    (hf2 : api.get_behavior_only_session_table = Except.ok v2)
    (hf3 : api.get_experiment_table = Except.ok v3) :
    ProjectCache.get_behavior_session_table ⟨api, true, m⟩ s =
      (Except.ok v2,
       ⟨(p3, encodeTable v3) :: (p2, encodeTable v2) :: s.files,
        s.log ++ (fiveSeq ++ fiveSeq), s.fetchCount + 2⟩) := by
  have hb3' : alookup p3 ((p2, encodeTable v2) :: s.files) = none := by
    rw [alookup_cons, if_neg hne]; exact hb3
  have e1 := cachedFetch_miss m BEHAVIOR_SESSIONS_KEY s p2 v2 h2 hb2
  have e2 := cachedFetch_miss m OPHYS_EXPERIMENTS_KEY
    ⟨(p2, encodeTable v2) :: s.files, s.log ++ fiveSeq, s.fetchCount + 1⟩
    p3 v3 h3 hb3'
  simp only [ProjectCache.get_behavior_session_table, hf2, hf3, e1, e2]
  simp [List.append_assoc]

theorem get_behavior_session_table_warm (api : FetchApi) (m : Manifest)
    (s : CacheState) (p2 p3 : String) (v2 v3 : Table)
    (h2 : m.resolve BEHAVIOR_SESSIONS_KEY = Except.ok p2)
    (h3 : m.resolve OPHYS_EXPERIMENTS_KEY = Except.ok p3)
    (hb2 : alookup p2 s.files = some (encodeTable v2))
    (hb3 : alookup p3 s.files = some (encodeTable v3)) :
    ProjectCache.get_behavior_session_table ⟨api, true, m⟩ s =
      (Except.ok v2,
       ⟨s.files, s.log ++ [evRead, evRead], s.fetchCount⟩) := by
  have e1 := cachedFetch_hit m BEHAVIOR_SESSIONS_KEY
    api.get_behavior_only_session_table s p2 v2 h2 hb2
  have e2 := cachedFetch_hit m OPHYS_EXPERIMENTS_KEY
    api.get_experiment_table
    ⟨s.files, s.log ++ [evRead], s.fetchCount⟩ p3 v3 h3 hb3
  simp only [ProjectCache.get_behavior_session_table, e1, e2]
  simp [List.append_assoc]

theorem get_behavior_session_table_noCache (api : FetchApi) (m : Manifest)
    (s : CacheState) (v2 v3 : Table)
    (hf2 : api.get_behavior_only_session_table = Except.ok v2)
    (hf3 : api.get_experiment_table = Except.ok v3) :
    ProjectCache.get_behavior_session_table ⟨api, false, m⟩ s =
      (Except.ok v2, ⟨s.files, s.log, s.fetchCount + 2⟩) := by
  simp only [ProjectCache.get_behavior_session_table, cachedFetch_disabled,
    hf2, hf3]

theorem get_experiment_table_cold (api : FetchApi) (m : Manifest)
    (s : CacheState) (p2 p3 : String) (v2 v3 : Table)
    (h3 : m.resolve OPHYS_EXPERIMENTS_KEY = Except.ok p3)
    (h2 : m.resolve BEHAVIOR_SESSIONS_KEY = Except.ok p2)
    (hne : p3 ≠ p2)
    (hb3 : alookup p3 s.files = none)
    (hb2 : alookup p2 s.files = none)
    (hf3 : api.get_experiment_table = Except.ok v3)
    (hf2 : api.get_behavior_only_session_table = Except.ok v2) :
    ProjectCache.get_experiment_table ⟨api, true, m⟩ s =
      (Except.ok v3,
       ⟨(p2, encodeTable v2) :: (p3, encodeTable v3) :: s.files,
        s.log ++ (fiveSeq ++ fiveSeq), s.fetchCount + 2⟩) := by
  have hb2' : alookup p2 ((p3, encodeTable v3) :: s.files) = none := by
    rw [alookup_cons, if_neg hne]; exact hb2
  have e1 := cachedFetch_miss m OPHYS_EXPERIMENTS_KEY s p3 v3 h3 hb3
  have e2 := cachedFetch_miss m BEHAVIOR_SESSIONS_KEY
    ⟨(p3, encodeTable v3) :: s.files, s.log ++ fiveSeq, s.fetchCount + 1⟩
    p2 v2 h2 hb2'
  simp only [ProjectCache.get_experiment_table, hf3, hf2, e1, e2]
  simp [List.append_assoc]

theorem get_experiment_table_noCache (api : FetchApi) (m : Manifest)
    (s : CacheState) (v2 v3 : Table)
    (hf3 : api.get_experiment_table = Except.ok v3)
    (hf2 : api.get_behavior_only_session_table = Except.ok v2) :
    ProjectCache.get_experiment_table ⟨api, false, m⟩ s =
      (Except.ok v3, ⟨s.files, s.log, s.fetchCount + 2⟩) := by
  simp only [ProjectCache.get_experiment_table, cachedFetch_disabled,
    hf3, hf2]

theorem runAccessor_noCache_frame (api : FetchApi) (m : Manifest)
    (a : Accessor) (s : CacheState) :
    (runAccessor ⟨api, false, m⟩ a s).2.files = s.files ∧
    (runAccessor ⟨api, false, m⟩ a s).2.log = s.log ∧
    s.fetchCount + 1 ≤ (runAccessor ⟨api, false, m⟩ a s).2.fetchCount := by
  cases a with
  | sessions =>
      simp only [runAccessor, ProjectCache.get_session_table,
        cachedFetch_disabled]
      cases api.get_session_table with
      | error e => simp
      | ok t =>
          cases api.get_behavior_only_session_table with
          | error e => exact ⟨rfl, rfl, Nat.le_succ _⟩
          | ok t2 => exact ⟨rfl, rfl, Nat.le_succ _⟩
  | behaviorSessions =>
      simp only [runAccessor, ProjectCache.get_behavior_session_table,
        cachedFetch_disabled]
      cases api.get_behavior_only_session_table with
      | error e => simp
      | ok t =>
          cases api.get_experiment_table with
          | error e => exact ⟨rfl, rfl, Nat.le_succ _⟩
          | ok t2 => exact ⟨rfl, rfl, Nat.le_succ _⟩
  | experiments =>
      simp only [runAccessor, ProjectCache.get_experiment_table,
        cachedFetch_disabled]
      cases api.get_experiment_table with
      | error e => simp
      | ok t =>
          cases api.get_behavior_only_session_table with
          | error e => exact ⟨rfl, rfl, Nat.le_succ _⟩
          | ok t2 => exact ⟨rfl, rfl, Nat.le_succ _⟩

/-! ## Claim theorems -/

/-- C1, counterexample: the claim says a single ProjectCache accessor call
on a cold cache emits exactly the five events probe, miss, fetch, write,
read and no others; at the concrete test fixture the log of a single cold
get_session_table call is the five-event sequence emitted twice (ten
events), as the in-repository test asserts, so the claim as stated is
false. -/
theorem c1_cold_cache_counterexample :
    (ProjectCache.get_session_table pcTrueFix DEFAULT_SESSION_INDEX s0).2.log =
      fiveSeq ++ fiveSeq ∧
    (ProjectCache.get_session_table pcTrueFix DEFAULT_SESSION_INDEX s0).2.log ≠
      fiveSeq := by
  constructor
  · decide
  · decide

/-- C1, amended: for every logical key whose backing file is not yet present
and with caching enabled, a single cached-fetch invocation emits exactly the
five log events probe, miss, fetch, write, read (in that order, and no
others), and returns codec.read applied to the bytes codec.write produced
from the fetched value; a single table-accessor call performs two such
invocations and therefore emits the five-event sequence twice. -/
theorem c1_cold_cache_sequence (m : Manifest) (api : FetchApi)
    (s : CacheState) (k path p1 p2 : String) (v v1 v2 : Table)
    (hr : m.resolve k = Except.ok path)
    (hb : alookup path s.files = none)
    (h1 : m.resolve OPHYS_SESSIONS_KEY = Except.ok p1)
    (h2 : m.resolve BEHAVIOR_SESSIONS_KEY = Except.ok p2)
    (hne : p1 ≠ p2)
    (hb1 : alookup p1 s.files = none)
    (hb2 : alookup p2 s.files = none)
    (hf1 : api.get_session_table = Except.ok v1)
    (hf2 : api.get_behavior_only_session_table = Except.ok v2) :
    cachedFetch m k (Except.ok v) true s =
      (readBytes (encodeTable v),
       ⟨(path, encodeTable v) :: s.files, s.log ++ fiveSeq,
        s.fetchCount + 1⟩) ∧
    (ProjectCache.get_session_table ⟨api, true, m⟩ DEFAULT_SESSION_INDEX
        s).2.log = s.log ++ (fiveSeq ++ fiveSeq) := by
  constructor
  · rw [cachedFetch_miss m k s path v hr hb, readBytes_encode]
  · rw [get_session_table_cold api m s DEFAULT_SESSION_INDEX p1 p2 v1 v2
      h1 h2 hne hb1 hb2 hf1 hf2]

/-- C1, witness: the amended statement instantiated at the test fixture. -/
theorem c1_cold_cache_sequence_witness :
    cachedFetch manifestFix OPHYS_SESSIONS_KEY (Except.ok sessionTableFix)
        true s0 =
      (readBytes (encodeTable sessionTableFix),
       ⟨[("cache_dir/ophys_sessions.json", encodeTable sessionTableFix)],
        fiveSeq, 1⟩) ∧
    (ProjectCache.get_session_table ⟨apiFix, true, manifestFix⟩
        DEFAULT_SESSION_INDEX s0).2.log = fiveSeq ++ fiveSeq :=
  c1_cold_cache_sequence manifestFix apiFix s0 OPHYS_SESSIONS_KEY
    "cache_dir/ophys_sessions.json" "cache_dir/ophys_sessions.json"
    "cache_dir/behavior_sessions.json" sessionTableFix sessionTableFix
    behaviorTableFix (by decide) (by decide) (by decide) (by decide)
    (by decide) (by decide) (by decide) (by decide) (by decide)

/-- C2: on a warm cache, a second accessor call for the same key emits
exactly the two probe/read events, returns a value equal by data to the
first call's result, and performs no filesystem writes. -/
theorem c2_warm_cache_idempotent (api : FetchApi) (m : Manifest)
    (s : CacheState) (p1 p2 : String) (v1 v2 : Table)
    (h1 : m.resolve OPHYS_SESSIONS_KEY = Except.ok p1)
    (h2 : m.resolve BEHAVIOR_SESSIONS_KEY = Except.ok p2)
    (hne : p1 ≠ p2)
    (hb1 : alookup p1 s.files = none)
    (hb2 : alookup p2 s.files = none)
    (hf1 : api.get_session_table = Except.ok v1)
    (hf2 : api.get_behavior_only_session_table = Except.ok v2) :
    (ProjectCache.get_session_table ⟨api, true, m⟩ DEFAULT_SESSION_INDEX
        (ProjectCache.get_session_table ⟨api, true, m⟩ DEFAULT_SESSION_INDEX
          s).2).1 =
      (ProjectCache.get_session_table ⟨api, true, m⟩ DEFAULT_SESSION_INDEX
        s).1 ∧
    (ProjectCache.get_session_table ⟨api, true, m⟩ DEFAULT_SESSION_INDEX
        (ProjectCache.get_session_table ⟨api, true, m⟩ DEFAULT_SESSION_INDEX
          s).2).2.files =
      (ProjectCache.get_session_table ⟨api, true, m⟩ DEFAULT_SESSION_INDEX
        s).2.files ∧
    (ProjectCache.get_session_table ⟨api, true, m⟩ DEFAULT_SESSION_INDEX
        (ProjectCache.get_session_table ⟨api, true, m⟩ DEFAULT_SESSION_INDEX
          s).2).2.log =
      (ProjectCache.get_session_table ⟨api, true, m⟩ DEFAULT_SESSION_INDEX
        s).2.log ++ [evRead, evRead] := by
  have hcold := get_session_table_cold api m s DEFAULT_SESSION_INDEX p1 p2
    v1 v2 h1 h2 hne hb1 hb2 hf1 hf2
  have hb1' : alookup p1
      ((p2, encodeTable v2) :: (p1, encodeTable v1) :: s.files) =
      some (encodeTable v1) := by
    rw [alookup_cons, if_neg (fun h => hne h.symm), alookup_cons, if_pos rfl]
  have hb2' : alookup p2
      ((p2, encodeTable v2) :: (p1, encodeTable v1) :: s.files) =
      some (encodeTable v2) := by
    rw [alookup_cons, if_pos rfl]
  have hwarm := get_session_table_warm api m
    ⟨(p2, encodeTable v2) :: (p1, encodeTable v1) :: s.files,
     s.log ++ (fiveSeq ++ fiveSeq), s.fetchCount + 2⟩
    DEFAULT_SESSION_INDEX p1 p2 v1 v2 h1 h2 hb1' hb2'
  rw [hcold]
  simp only [hwarm]
  exact ⟨trivial, trivial, trivial⟩

/-- C2, witness: the warm-cache statement instantiated at the test
fixture. -/
theorem c2_warm_cache_idempotent_witness :
    (ProjectCache.get_session_table ⟨apiFix, true, manifestFix⟩
        DEFAULT_SESSION_INDEX
        (ProjectCache.get_session_table ⟨apiFix, true, manifestFix⟩
          DEFAULT_SESSION_INDEX s0).2).1 =
      (ProjectCache.get_session_table ⟨apiFix, true, manifestFix⟩
        DEFAULT_SESSION_INDEX s0).1 ∧
    (ProjectCache.get_session_table ⟨apiFix, true, manifestFix⟩
        DEFAULT_SESSION_INDEX
        (ProjectCache.get_session_table ⟨apiFix, true, manifestFix⟩
          DEFAULT_SESSION_INDEX s0).2).2.files =
      (ProjectCache.get_session_table ⟨apiFix, true, manifestFix⟩
        DEFAULT_SESSION_INDEX s0).2.files ∧
    (ProjectCache.get_session_table ⟨apiFix, true, manifestFix⟩
        DEFAULT_SESSION_INDEX
        (ProjectCache.get_session_table ⟨apiFix, true, manifestFix⟩
          DEFAULT_SESSION_INDEX s0).2).2.log =
      (ProjectCache.get_session_table ⟨apiFix, true, manifestFix⟩
        DEFAULT_SESSION_INDEX s0).2.log ++ [evRead, evRead] :=
  c2_warm_cache_idempotent apiFix manifestFix s0
    "cache_dir/ophys_sessions.json" "cache_dir/behavior_sessions.json"
    sessionTableFix behaviorTableFix (by decide) (by decide) (by decide)
    (by decide) (by decide) (by decide) (by decide)

/-- C3: on a cold cache with caching enabled, a single call to
get_session_table, and likewise get_behavior_session_table, emits the
five-event sequence twice in immediate succession — ten events in total —
and performs exactly two remote-fetch invocations, one per cached-fetch
invocation. -/
theorem c3_doubled_cold_sequence (api : FetchApi) (m : Manifest)
    (s : CacheState) (p1 p2 p3 : String) (v1 v2 v3 : Table)
    (h1 : m.resolve OPHYS_SESSIONS_KEY = Except.ok p1)
    (h2 : m.resolve BEHAVIOR_SESSIONS_KEY = Except.ok p2)
    (h3 : m.resolve OPHYS_EXPERIMENTS_KEY = Except.ok p3)
    (hne12 : p1 ≠ p2) (hne23 : p2 ≠ p3)
    (hb1 : alookup p1 s.files = none)
    (hb2 : alookup p2 s.files = none)
    (hb3 : alookup p3 s.files = none)
    (hf1 : api.get_session_table = Except.ok v1)
    (hf2 : api.get_behavior_only_session_table = Except.ok v2)
    (hf3 : api.get_experiment_table = Except.ok v3) :
    (ProjectCache.get_session_table ⟨api, true, m⟩ DEFAULT_SESSION_INDEX
        s).2.log = s.log ++ (fiveSeq ++ fiveSeq) ∧
    (ProjectCache.get_behavior_session_table ⟨api, true, m⟩ s).2.log =
      s.log ++ (fiveSeq ++ fiveSeq) ∧
    (ProjectCache.get_session_table ⟨api, true, m⟩ DEFAULT_SESSION_INDEX
        s).2.fetchCount = s.fetchCount + 2 ∧
    (ProjectCache.get_behavior_session_table ⟨api, true, m⟩ s).2.fetchCount =
      s.fetchCount + 2 := by
  rw [get_session_table_cold api m s DEFAULT_SESSION_INDEX p1 p2 v1 v2
      h1 h2 hne12 hb1 hb2 hf1 hf2,
    get_behavior_session_table_cold api m s p2 p3 v2 v3 h2 h3 hne23 hb2 hb3
      hf2 hf3]
  exact ⟨rfl, rfl, rfl, rfl⟩

/-- C3, witness: the doubled cold sequence at the test fixture. -/
theorem c3_doubled_cold_sequence_witness :
    (ProjectCache.get_session_table ⟨apiFix, true, manifestFix⟩
        DEFAULT_SESSION_INDEX s0).2.log = fiveSeq ++ fiveSeq ∧
    (ProjectCache.get_behavior_session_table ⟨apiFix, true, manifestFix⟩
        s0).2.log = fiveSeq ++ fiveSeq ∧
    (ProjectCache.get_session_table ⟨apiFix, true, manifestFix⟩
        DEFAULT_SESSION_INDEX s0).2.fetchCount = 2 ∧
    (ProjectCache.get_behavior_session_table ⟨apiFix, true, manifestFix⟩
        s0).2.fetchCount = 2 :=
  c3_doubled_cold_sequence apiFix manifestFix s0
    "cache_dir/ophys_sessions.json" "cache_dir/behavior_sessions.json"
    "cache_dir/ophys_experiments.json" sessionTableFix behaviorTableFix
    experimentsTableFix (by decide) (by decide) (by decide) (by decide)
    (by decide) (by decide) (by decide) (by decide) (by decide) (by decide)
    (by decide)

/-- C4: the derived view: its row count is the sum of the lengths of the
exploded column's lists, every derived row's non-exploded fields equal the
fields of its parent row (with the old index carried as a column), and at
the concrete one-row fixture table get_session_table with
index_column ophys_experiment_id returns exactly the two rows indexed 5
and 6, each carrying ophys_session_id = 1. -/
theorem c4_derived_view_invariant :
    (∀ (t : Table) (col : String),
      (explode t col).rows.length =
        (t.rows.map (fun p => (cellElems (alookup col p.2)).length)).sum) ∧
    (∀ (t : Table) (col : String) (r : Nat × Row),
      r ∈ (explode t col).rows →
        ∃ p, p ∈ t.rows ∧ r.1 ∈ cellElems (alookup col p.2) ∧
          r.2 = (t.indexName, Cell.nat p.1) :: eraseField col p.2) ∧
    (ProjectCache.get_session_table pcTrueFix "ophys_experiment_id" s0).1 =
      Except.ok
        ⟨"ophys_experiment_id",
         [(5, [("ophys_session_id", Cell.nat 1),
               ("behavior_session_id", Cell.nat 3),
               ("date_of_acquisition", Cell.str "2020-02-20")]),
          (6, [("ophys_session_id", Cell.nat 1),
               ("behavior_session_id", Cell.nat 3),
               ("date_of_acquisition", Cell.str "2020-02-20")])]⟩ := by
  refine ⟨?_, ?_, by decide⟩
  · intro t col
    rw [explode, length_listJoinMap]
    simp
  · intro t col r h
    rw [explode] at h
    rw [mem_listJoinMap] at h
    obtain ⟨p, hp, hr⟩ := h
    rcases List.mem_map.mp hr with ⟨x, hx, rfl⟩
    exact ⟨p, hp, hx, rfl⟩

/-- C4, witness: the membership characterization applied to the first
derived row of the fixture table. -/
theorem c4_derived_view_invariant_witness :
    ∃ p, p ∈ sessionTableFix.rows ∧
      (5 : Nat) ∈ cellElems (alookup "ophys_experiment_id" p.2) ∧
      ([("ophys_session_id", Cell.nat 1),
        ("behavior_session_id", Cell.nat 3),
        ("date_of_acquisition", Cell.str "2020-02-20")] : Row) =
        (sessionTableFix.indexName, Cell.nat p.1) ::
          eraseField "ophys_experiment_id" p.2 :=
  c4_derived_view_invariant.2.1 sessionTableFix "ophys_experiment_id"
    (5, [("ophys_session_id", Cell.nat 1),
         ("behavior_session_id", Cell.nat 3),
         ("date_of_acquisition", Cell.str "2020-02-20")])
    (by decide)

/-- C5: the write-then-read round-trip law holds for every table value, and
with caching enabled both the cached-fetch primitive and the accessor return
the codec's round-tripped representation of the fetched value — the
deserialization of the bytes the codec wrote — never the raw in-memory
fetch result. -/
theorem c5_write_then_read_roundtrip (m : Manifest) (api : FetchApi)
    (s : CacheState) (k path p1 p2 : String) (v v1 v2 : Table)
    (hr : m.resolve k = Except.ok path)
    (hb : alookup path s.files = none)
    (h1 : m.resolve OPHYS_SESSIONS_KEY = Except.ok p1)
    (h2 : m.resolve BEHAVIOR_SESSIONS_KEY = Except.ok p2)
    (hne : p1 ≠ p2)
    (hb1 : alookup p1 s.files = none)
    (hb2 : alookup p2 s.files = none)
    (hf1 : api.get_session_table = Except.ok v1)
    (hf2 : api.get_behavior_only_session_table = Except.ok v2) :
    (∀ t : Table, readBytes (encodeTable t) = Except.ok t) ∧
    (cachedFetch m k (Except.ok v) true s).1 = readBytes (encodeTable v) ∧
    readFile (cachedFetch m k (Except.ok v) true s).2.files path =
      readBytes (encodeTable v) ∧
    (ProjectCache.get_session_table ⟨api, true, m⟩ DEFAULT_SESSION_INDEX
        s).1 = readBytes (encodeTable v1) := by
  have hmiss := cachedFetch_miss m k s path v hr hb
  refine ⟨readBytes_encode, ?_, ?_, ?_⟩
  · rw [hmiss, readBytes_encode]
  · rw [hmiss]
    simp [readFile, alookup_cons]
  · rw [get_session_table_cold api m s DEFAULT_SESSION_INDEX p1 p2 v1 v2
      h1 h2 hne hb1 hb2 hf1 hf2, readBytes_encode]
    simp

/-- C5, witness: the round-trip statement instantiated at the test
fixture. -/
theorem c5_write_then_read_roundtrip_witness :
    (∀ t : Table, readBytes (encodeTable t) = Except.ok t) ∧
    (cachedFetch manifestFix OPHYS_SESSIONS_KEY (Except.ok sessionTableFix)
        true s0).1 = readBytes (encodeTable sessionTableFix) ∧
    readFile (cachedFetch manifestFix OPHYS_SESSIONS_KEY
        (Except.ok sessionTableFix) true s0).2.files
        "cache_dir/ophys_sessions.json" =
      readBytes (encodeTable sessionTableFix) ∧
    (ProjectCache.get_session_table ⟨apiFix, true, manifestFix⟩
        DEFAULT_SESSION_INDEX s0).1 =
      readBytes (encodeTable sessionTableFix) :=
  c5_write_then_read_roundtrip manifestFix apiFix s0 OPHYS_SESSIONS_KEY
    "cache_dir/ophys_sessions.json" "cache_dir/ophys_sessions.json"
    "cache_dir/behavior_sessions.json" sessionTableFix sessionTableFix
    behaviorTableFix (by decide) (by decide) (by decide) (by decide)
    (by decide) (by decide) (by decide) (by decide) (by decide)

/-- C6: with cache disabled, for every sequence of accessor calls no file is
ever created under the cache root (the file store is unchanged), the log is
unchanged — in particular the write event never appears — and every call
re-invokes the fetch collaborator (the fetch count grows by at least one per
call). -/
theorem c6_disabled_cache_passthrough (api : FetchApi) (m : Manifest)
    (cs : List Accessor) (s : CacheState) :
    (runCalls ⟨api, false, m⟩ cs s).files = s.files ∧
    (runCalls ⟨api, false, m⟩ cs s).log = s.log ∧
    s.fetchCount + cs.length ≤ (runCalls ⟨api, false, m⟩ cs s).fetchCount := by
  induction cs generalizing s with
  | nil => exact ⟨rfl, rfl, Nat.le_refl _⟩
  | cons a t ih =>
      obtain ⟨haf, hal, hac⟩ := runAccessor_noCache_frame api m a s
      obtain ⟨ihf, ihl, ihc⟩ := ih (runAccessor ⟨api, false, m⟩ a s).2
      refine ⟨?_, ?_, ?_⟩
      · rw [runCalls, ihf, haf]
      · rw [runCalls, ihl, hal]
      · rw [runCalls, List.length_cons]
        omega

/-- C7: resolving a logical key that has no configured template fails with
UnknownKey, and a cached fetch on such a key surfaces the failure to the
caller immediately with the world state fully unchanged: no log event, no
file operation, no remote-fetch invocation. -/
theorem c7_unknown_key (m : Manifest) (k : String)
    (h : alookup k m.entries = none) :
    m.resolve k = Except.error CacheError.unknownKey ∧
    ∀ (fetch : Except CacheError Table) (s : CacheState),
      cachedFetch m k fetch true s = (Except.error CacheError.unknownKey, s) := by
  constructor
  · rw [Manifest.resolve, h]
  · intro fetch s
    exact cachedFetch_unknown m k fetch s h

/-- C7, witness: the unknown-key statement at a key the fixture manifest was
not configured with. -/
theorem c7_unknown_key_witness :
    manifestFix.resolve "no_such_key" =
      Except.error CacheError.unknownKey ∧
    ∀ (fetch : Except CacheError Table) (s : CacheState),
      cachedFetch manifestFix "no_such_key" fetch true s =
        (Except.error CacheError.unknownKey, s) :=
  c7_unknown_key manifestFix "no_such_key" (by decide)

/-- C8: when the remote fetch fails during a miss, the RemoteFetchError is
propagated to the caller with the probe, miss and fetch events logged but no
write or trailing read event, no cache file is left behind (the store is
unchanged), and a subsequent manifest presence check for the key still
reports a miss. -/
theorem c8_remote_fetch_error (m : Manifest) (k : String) (s : CacheState)
    (path : String) (hr : m.resolve k = Except.ok path)
    (hb : alookup path s.files = none) :
    cachedFetch m k (Except.error CacheError.remoteFetchError) true s =
      (Except.error CacheError.remoteFetchError,
       ⟨s.files, s.log ++ [evRead, evMiss, evFetch], s.fetchCount + 1⟩) ∧
    existsOnDisk m k
        (cachedFetch m k (Except.error CacheError.remoteFetchError) true
          s).2.files = Except.ok false := by
  have hfail := cachedFetch_fetchFail m k s path CacheError.remoteFetchError
    hr hb
  refine ⟨hfail, ?_⟩
  rw [hfail]
  simp only [existsOnDisk, hr, hb, Option.isSome_none]

/-- C8, witness: the fetch-failure statement at the test fixture manifest
and an empty cache. -/
theorem c8_remote_fetch_error_witness :
    cachedFetch manifestFix OPHYS_SESSIONS_KEY
        (Except.error CacheError.remoteFetchError) true s0 =
      (Except.error CacheError.remoteFetchError,
       ⟨[], [evRead, evMiss, evFetch], 1⟩) ∧
    existsOnDisk manifestFix OPHYS_SESSIONS_KEY
        (cachedFetch manifestFix OPHYS_SESSIONS_KEY
          (Except.error CacheError.remoteFetchError) true s0).2.files =
      Except.ok false :=
  c8_remote_fetch_error manifestFix OPHYS_SESSIONS_KEY s0
    "cache_dir/ophys_sessions.json" (by decide) (by decide)

/-- C9: with the default index_column, get_session_table returns the base
session table unmodified — the very table the fetch produced, with no column
exploded and no rows added or removed — both with caching enabled and with
it disabled. -/
theorem c9_default_index_unmodified (api : FetchApi) (m : Manifest)
    (s : CacheState) (p1 p2 : String) (v1 v2 : Table)
    (h1 : m.resolve OPHYS_SESSIONS_KEY = Except.ok p1)
    (h2 : m.resolve BEHAVIOR_SESSIONS_KEY = Except.ok p2)
    (hne : p1 ≠ p2)
    (hb1 : alookup p1 s.files = none)
    (hb2 : alookup p2 s.files = none)
    (hf1 : api.get_session_table = Except.ok v1)
    (hf2 : api.get_behavior_only_session_table = Except.ok v2) :
    (ProjectCache.get_session_table ⟨api, true, m⟩ DEFAULT_SESSION_INDEX
        s).1 = Except.ok v1 ∧
    (ProjectCache.get_session_table ⟨api, false, m⟩ DEFAULT_SESSION_INDEX
        s).1 = Except.ok v1 := by
  rw [get_session_table_cold api m s DEFAULT_SESSION_INDEX p1 p2 v1 v2
      h1 h2 hne hb1 hb2 hf1 hf2,
    get_session_table_noCache api m s DEFAULT_SESSION_INDEX v1 v2 hf1 hf2]
  exact ⟨by simp, by simp⟩

/-- C9, witness: the default-index statement at the test fixture. -/
theorem c9_default_index_unmodified_witness :
    (ProjectCache.get_session_table ⟨apiFix, true, manifestFix⟩
        DEFAULT_SESSION_INDEX s0).1 = Except.ok sessionTableFix ∧
    (ProjectCache.get_session_table ⟨apiFix, false, manifestFix⟩
        DEFAULT_SESSION_INDEX s0).1 = Except.ok sessionTableFix :=
  c9_default_index_unmodified apiFix manifestFix s0
    "cache_dir/ophys_sessions.json" "cache_dir/behavior_sessions.json"
    sessionTableFix behaviorTableFix (by decide) (by decide) (by decide)
    (by decide) (by decide) (by decide) (by decide)

/-- C10: for every table accessor and a fixed fetch api, the returned table
is value-equal whether the cache was constructed with the caching flag true
or false: the flag is observationally transparent for the returned data. -/
theorem c10_cache_flag_transparent (api : FetchApi) (m : Manifest)
    (s : CacheState) (p1 p2 p3 : String) (v1 v2 v3 : Table)
    (h1 : m.resolve OPHYS_SESSIONS_KEY = Except.ok p1)
    (h2 : m.resolve BEHAVIOR_SESSIONS_KEY = Except.ok p2)
    (h3 : m.resolve OPHYS_EXPERIMENTS_KEY = Except.ok p3)
    (hne12 : p1 ≠ p2) (hne23 : p2 ≠ p3)
    (hb1 : alookup p1 s.files = none)
    (hb2 : alookup p2 s.files = none)
    (hb3 : alookup p3 s.files = none)
    (hf1 : api.get_session_table = Except.ok v1)
    (hf2 : api.get_behavior_only_session_table = Except.ok v2)
    (hf3 : api.get_experiment_table = Except.ok v3) :
    ∀ a : Accessor,
      (runAccessor ⟨api, true, m⟩ a s).1 =
        (runAccessor ⟨api, false, m⟩ a s).1 := by
  intro a
  cases a with
  | sessions =>
      simp only [runAccessor]
      rw [get_session_table_cold api m s DEFAULT_SESSION_INDEX p1 p2 v1 v2
          h1 h2 hne12 hb1 hb2 hf1 hf2,
        get_session_table_noCache api m s DEFAULT_SESSION_INDEX v1 v2 hf1 hf2]
  | behaviorSessions =>
      simp only [runAccessor]
      rw [get_behavior_session_table_cold api m s p2 p3 v2 v3 h2 h3 hne23
          hb2 hb3 hf2 hf3,
        get_behavior_session_table_noCache api m s v2 v3 hf2 hf3]
  | experiments =>
      simp only [runAccessor]
      rw [get_experiment_table_cold api m s p2 p3 v2 v3 h3 h2
          (fun h => hne23 h.symm) hb3 hb2 hf3 hf2,
        get_experiment_table_noCache api m s v2 v3 hf3 hf2]

/-- C10, witness: the transparency statement at the test fixture, for the
session-table accessor. -/
theorem c10_cache_flag_transparent_witness :
    (runAccessor ⟨apiFix, true, manifestFix⟩ Accessor.sessions s0).1 =
      (runAccessor ⟨apiFix, false, manifestFix⟩ Accessor.sessions s0).1 :=
  c10_cache_flag_transparent apiFix manifestFix s0
    "cache_dir/ophys_sessions.json" "cache_dir/behavior_sessions.json"
    "cache_dir/ophys_experiments.json" sessionTableFix behaviorTableFix
    experimentsTableFix (by decide) (by decide) (by decide) (by decide)
    (by decide) (by decide) (by decide) (by decide) (by decide) (by decide)
    (by decide) Accessor.sessions

end AllenSDK
